import Mathlib

/- Shallow embedding of the HTTP/2 framing layer (frame.go, constants.go).
   Go byte slices are List Nat (entries < 256 by construction of the writers);
   Go uint32 arithmetic is Nat with explicit masking exactly where the source
   converts or masks. Sequential in-bounds buffer writes are modelled as list
   concatenation; the two places where the source can write or read out of
   range (GoAwayFrame.Serialize, ParseGoAwayFrame) are modelled with an
   explicit bounds test whose failure is the crash outcome (a Go runtime
   slice-bounds failure), distinct from an error return. -/

-- constants.go
def FrameData : Nat := 0x0

def FrameHeadersType : Nat := 0x1

def FramePriorityType : Nat := 0x2

def FrameRSTStream : Nat := 0x3

def FrameSettings : Nat := 0x4

def FramePushPromise : Nat := 0x5

def FramePing : Nat := 0x6

def FrameGoWay : Nat := 0x7

def FrameWindowUpdate : Nat := 0x8

def FrameContinuation : Nat := 0x9

def FlagEndStream : Nat := 1 <<< 0

def FlagEndHeaders : Nat := 1 <<< 2

def FlagPadded : Nat := 1 <<< 3

def FlagPriorityBit : Nat := 1 <<< 5

/- Result of a Go function returning (value, error); crash models a runtime
   slice-bounds failure rather than a returned error. -/
inductive SResult (α : Type) where
  | ok (val : α)
  | err (msg : String)
  | crash
deriving Repr, DecidableEq

def SResult.isOk {α : Type} : SResult α → Bool
  | .ok _ => true
  | _ => false

def SResult.isErr {α : Type} : SResult α → Bool
  | .err _ => true
  | _ => false

-- binary.BigEndian.PutUint32: four big-endian bytes of a uint32
def putUint32 (v : Nat) : List Nat :=
  [(v >>> 24) % 256, (v >>> 16) % 256, (v >>> 8) % 256, v % 256]

-- binary.BigEndian.PutUint16
def putUint16 (v : Nat) : List Nat :=
  [(v >>> 8) % 256, v % 256]

-- binary.BigEndian.Uint32(p[off:off+4])
def uint32At (p : List Nat) (off : Nat) : Nat :=
  (p.getD off 0) <<< 24 ||| (p.getD (off + 1) 0) <<< 16 |||
  (p.getD (off + 2) 0) <<< 8 ||| p.getD (off + 3) 0

-- binary.BigEndian.Uint16(p[off:off+2])
def uint16At (p : List Nat) (off : Nat) : Nat :=
  (p.getD off 0) <<< 8 ||| p.getD (off + 1) 0

/- copy(dst[off:], src): overwrite dst starting at off, truncating at the end
   of dst; the result keeps the length of dst. -/
def writeBytes (dst : List Nat) (off : Nat) (src : List Nat) : List Nat :=
  dst.take off ++ src.take (dst.length - off) ++ dst.drop (off + src.length)

-- frame.go: type FrameHeader struct
structure FrameHeader where
  length : Nat
  type : Nat
  flags : Nat
  streamID : Nat
deriving Repr, DecidableEq

structure DataFrame where
  frameHeader : FrameHeader
  padLen : Nat
  data : List Nat
deriving Repr, DecidableEq

structure HeadersFrame where
  frameHeader : FrameHeader
  padLen : Nat
  exclusive : Bool
  streamDependency : Nat
  weight : Nat
  headerBlock : List Nat
deriving Repr, DecidableEq

structure Setting where
  id : Nat
  value : Nat
deriving Repr, DecidableEq

structure SettingsFrame where
  frameHeader : FrameHeader
  settings : List Setting
deriving Repr, DecidableEq

structure PingFrame where
  frameHeader : FrameHeader
  data : List Nat
deriving Repr, DecidableEq

structure WindowUpdateFrame where
  frameHeader : FrameHeader
  windowSizeIncrement : Nat
deriving Repr, DecidableEq

structure RSTStreamFrame where
  frameHeader : FrameHeader
  errorCode : Nat
deriving Repr, DecidableEq

structure GoAwayFrame where
  frameHeader : FrameHeader
  lastStreamID : Nat
  errorCode : Nat
  debugData : List Nat
deriving Repr, DecidableEq

def hasPad (flags : Nat) : Bool :=
  flags &&& FlagPadded != 0

def hasPriority (flags : Nat) : Bool :=
  flags &&& FlagPriorityBit != 0

/- func (h *FrameHeader) Serialize() []byte: 3 length bytes (byte conversion
   truncates mod 256), type, flags, then the stream id masked to 31 bits. -/
def FrameHeader.Serialize (h : FrameHeader) : List Nat :=
  [(h.length >>> 16) % 256, (h.length >>> 8) % 256, h.length % 256, h.type, h.flags] ++
  putUint32 (h.streamID &&& 0x7FFFFFFF)

-- func ParseFrameHeader(data []byte) (*FrameHeader, error)
def ParseFrameHeader (data : List Nat) : SResult FrameHeader :=
  if data.length < 9 then
    .err "FRAME_SIZE_ERROR: frame header must be 9 bytes"
  else
    .ok { length := (data.getD 0 0) <<< 16 ||| (data.getD 1 0) <<< 8 ||| data.getD 2 0,
          type := data.getD 3 0,
          flags := data.getD 4 0,
          streamID := uint32At data 5 &&& (1 <<< 31 - 1) }

/- func (f *HeadersFrame) Serialize() ([]byte, error).  Note the source
   ASSIGNS payloadLength = 1 + PadLen in the padded branch (it does not add
   len(HeaderBlock)), and the final copy of the header block truncates to the
   room left in the allocated buffer. -/
def HeadersFrame.Serialize (f : HeadersFrame) : SResult (List Nat) :=
  if f.frameHeader.streamID = 0 then
    .err "HEADERS_FRAME_ERROR: frame must have non-zero stream ID"
  else if hasPad f.frameHeader.flags ∧ f.padLen > 255 then
    .err "HEADERS_FRAME_ERROR: padLen is out of range"
  else
    let payloadLength :=
      (if hasPad f.frameHeader.flags then 1 + f.padLen else f.headerBlock.length) +
      (if hasPriority f.frameHeader.flags then 5 else 0)
    if payloadLength > 0xFFFFFF then
      .err "HEADERS_FRAME_ERROR: payloadLength is out of range"
    else
      let headerBytes := FrameHeader.Serialize { f.frameHeader with length := payloadLength }
      let padPart := if hasPad f.frameHeader.flags then [f.padLen] else []
      let prioPart :=
        if hasPriority f.frameHeader.flags then
          putUint32 (if f.exclusive then f.streamDependency ||| 0x80000000
                     else f.streamDependency ||| 0x7FFFFFFF) ++ [f.weight]
        else []
      let room := payloadLength - (padPart.length + prioPart.length)
      .ok (headerBytes ++ padPart ++ prioPart ++ f.headerBlock.take room ++
           List.replicate (room - f.headerBlock.length) 0)

-- func ParseHeadersFrame(header *FrameHeader, payload []byte)
def ParseHeadersFrame (header : FrameHeader) (payload : List Nat) : SResult HeadersFrame :=
  if hasPad header.flags ∧ payload.length < 1 then
    .err "HEADERS_FRAME_ERROR: pad is required"
  else
    let padLen := if hasPad header.flags then payload.getD 0 0 else 0
    let offset1 := if hasPad header.flags then 1 else 0
    if hasPriority header.flags ∧ payload.length < offset1 + 5 then
      .err "HEADERS_FRAME_ERROR: priority is required"
    else
      let dep := uint32At payload offset1
      let offset2 := offset1 + (if hasPriority header.flags then 5 else 0)
      if payload.length < offset2 + padLen then
        .err "HEADERS_FRAME_ERROR: header block length must not be negative"
      else
        .ok { frameHeader := header,
              padLen := padLen,
              exclusive := if hasPriority header.flags then dep &&& 0x80000000 != 0 else false,
              streamDependency := if hasPriority header.flags then dep &&& 0x7FFFFFFF else 0,
              weight := if hasPriority header.flags then payload.getD (offset1 + 4) 0 else 0,
              headerBlock := (payload.drop offset2).take (payload.length - offset2 - padLen) }

-- func (f *DataFrame) Serialize() ([]byte, error)
def DataFrame.Serialize (f : DataFrame) : SResult (List Nat) :=
  if f.frameHeader.streamID = 0 then
    .err "DATA_FRAME_ERROR: StreamID must be greater than zero"
  else if hasPad f.frameHeader.flags ∧ f.padLen > 255 then
    .err "DATA_FRAME_ERROR: PadLen must be <= 255"
  else
    let payloadLength :=
      if hasPad f.frameHeader.flags then 1 + f.data.length + f.padLen else f.data.length
    if payloadLength > 0xFFFFFF then
      .err ""
    else
      let headerBytes := FrameHeader.Serialize { f.frameHeader with length := payloadLength }
      if hasPad f.frameHeader.flags then
        .ok (headerBytes ++ [f.padLen] ++ f.data ++ List.replicate f.padLen 0)
      else
        .ok (headerBytes ++ f.data)

-- func ParseDataFrame(header *FrameHeader, payload []byte)
def ParseDataFrame (header : FrameHeader) (payload : List Nat) : SResult DataFrame :=
  if header.type ≠ FrameData then
    .err "DATA_FRAME_ERROR: expected frame type"
  else if hasPad header.flags ∧ payload.length < 1 then
    .err "DATA_FRAME_ERROR: pad is required"
  else
    let padLen := if hasPad header.flags then payload.getD 0 0 else 0
    let offset := if hasPad header.flags then 1 else 0
    if hasPad header.flags ∧ payload.length - offset < padLen then
      .err "DATA_FRAME_ERROR: pad length out of range"
    else if payload.length < offset + padLen then
      .err "DATA_FRAME_ERROR: data length out of range"
    else
      .ok { frameHeader := header,
            padLen := padLen,
            data := (payload.drop offset).take (payload.length - offset - padLen) }

-- the per-record body of SettingsFrame.Serialize's loop, in wire order
def serializeSettings : List Setting → List Nat
  | [] => []
  | s :: rest => putUint16 s.id ++ putUint32 s.value ++ serializeSettings rest

/- func (f *SettingsFrame) Serialize() ([]byte, error): no validation at all,
   in particular no check of StreamID. -/
def SettingsFrame.Serialize (f : SettingsFrame) : SResult (List Nat) :=
  let headerBytes :=
    FrameHeader.Serialize { f.frameHeader with length := f.settings.length * 6 }
  .ok (headerBytes ++ serializeSettings f.settings)

-- the loop of ParseSettingsFrame: one Setting per 6-byte chunk, in wire order
def parseSettings : List Nat → List Setting
  | a :: b :: c :: d :: e :: f :: rest =>
      { id := a <<< 8 ||| b,
        value := c <<< 24 ||| d <<< 16 ||| e <<< 8 ||| f } :: parseSettings rest
  | _ => []

-- func ParseSettingsFrame(header *FrameHeader, payload []byte): no type check
def ParseSettingsFrame (header : FrameHeader) (payload : List Nat) : SResult SettingsFrame :=
  if header.streamID ≠ 0 then
    .err "SETTINGS_FRAME_ERROR: streamID must be zero"
  else if payload.length % 6 ≠ 0 then
    .err "SETTINGS_FRAME_ERROR: invalid payload length"
  else
    .ok { frameHeader := header, settings := parseSettings payload }

/- func (f *PingFrame) Serialize() ([]byte, error); the error message is the
   source's own copy-pasted SETTINGS text. -/
def PingFrame.Serialize (f : PingFrame) : SResult (List Nat) :=
  if f.frameHeader.streamID ≠ 0 then
    .err "SETTINGS_FRAME_ERROR: streamID must be zero"
  else
    let headerBytes := FrameHeader.Serialize { f.frameHeader with length := 8 }
    .ok (headerBytes ++ f.data.take 8 ++ List.replicate (8 - f.data.length) 0)

-- func ParsePingFrame(header *FrameHeader, payload []byte)
def ParsePingFrame (header : FrameHeader) (payload : List Nat) : SResult PingFrame :=
  if header.type ≠ FramePing then
    .err "PING_FRAME_ERROR: expected frame type"
  else if header.streamID ≠ 0 then
    .err "PING_FRAME_ERROR: streamID must be zero"
  else if payload.length ≠ 8 then
    .err "PING_FRAME_ERROR: invalid payload length"
  else
    .ok { frameHeader := header, data := payload }

-- func (f *WindowUpdateFrame) Serialize() ([]byte, error)
def WindowUpdateFrame.Serialize (f : WindowUpdateFrame) : SResult (List Nat) :=
  if f.windowSizeIncrement = 0 ∨ f.windowSizeIncrement > 0x7FFFFFFF then
    .err "WINDOW_UPDATE_FRAME_ERROR: invalid window size"
  else
    let headerBytes := FrameHeader.Serialize { f.frameHeader with length := 4 }
    .ok (headerBytes ++ putUint32 (f.windowSizeIncrement &&& 0x7FFFFFFF))

-- func ParseWindowUpdateFrame(header *FrameHeader, payload []byte)
def ParseWindowUpdateFrame (header : FrameHeader) (payload : List Nat) :
    SResult WindowUpdateFrame :=
  if payload.length < 4 then
    .err "WINDOW_UPDATE_FRAME_ERROR: invalid payload length"
  else if header.type ≠ FrameWindowUpdate then
    .err "WINDOW_UPDATE_FRAME_ERROR: expected frame type"
  else if header.length ≠ 4 then
    .err "WINDOW_UPDATE_FRAME_ERROR: invalid length"
  else
    let increment := uint32At payload 0 &&& 0x7FFFFFFF
    if increment = 0 then
      .err "WINDOW_UPDATE_FRAME_ERROR: invalid increment value"
    else
      .ok { frameHeader := header, windowSizeIncrement := increment }

-- func (f *RSTStreamFrame) Serialize() ([]byte, error)
def RSTStreamFrame.Serialize (f : RSTStreamFrame) : SResult (List Nat) :=
  if f.errorCode = 0 then
    .err "RST_STREAM_FRAME_ERROR: streamID must be greater than zero"
  else
    let headerBytes := FrameHeader.Serialize { f.frameHeader with length := 4 }
    .ok (headerBytes ++ putUint32 f.errorCode)

-- func ParseRSTStreamFrame(header *FrameHeader, payload []byte)
def ParseRSTStreamFrame (header : FrameHeader) (payload : List Nat) :
    SResult RSTStreamFrame :=
  if payload.length < 4 then
    .err "RST_STREAMFRAME_ERROR: invalid payload length"
  else if header.type ≠ FrameRSTStream then
    .err "RST_STREAMFRAME_ERROR: expected frame type"
  else if header.length ≠ 4 then
    .err "RST_STREAMFRAME_ERROR: invalid length"
  else
    .ok { frameHeader := header, errorCode := uint32At payload 0 }

/- func (f *GoAwayFrame) Serialize() ([]byte, error).  The frame buffer has
   9 + 8 + len(DebugData) bytes.  After writing LastStreamID at offset 9 the
   source advances offset to 13 and then writes ErrorCode at
   frame[offset+4 : offset+8] = frame[17:21]: if the buffer is shorter than
   21 bytes (DebugData under 4 bytes) that slice is out of range (crash);
   otherwise ErrorCode lands at offset 17, where the subsequent
   copy(frame[17:], DebugData) overwrites it. -/
def GoAwayFrame.Serialize (f : GoAwayFrame) : SResult (List Nat) :=
  if f.frameHeader.streamID ≠ 0 then
    .err "GOWAYFRAME_FRAME_ERROR: streamID must be zero"
  else
    let len := 8 + f.debugData.length
    let headerBytes := FrameHeader.Serialize { f.frameHeader with length := len }
    let frame0 := headerBytes ++ List.replicate len 0
    let frame1 := writeBytes frame0 9 (putUint32 (f.lastStreamID &&& 0x7FFFFFFF))
    if frame0.length < 21 then
      .crash
    else
      let frame2 := writeBytes frame1 17 (putUint32 f.errorCode)
      .ok (writeBytes frame2 17 f.debugData)

/- func ParseGoAwayFrame(header *FrameHeader, payload []byte).  The source
   allocates make([]byte, header.Length-8) with wrapping uint32 subtraction,
   and when header.Length > 8 slices payload[8:header.Length] without a
   bounds check: out of range (crash) when header.Length > len(payload). -/
def ParseGoAwayFrame (header : FrameHeader) (payload : List Nat) : SResult GoAwayFrame :=
  if payload.length < 8 then
    .err "GOWAYFRAME_ERROR: invalid payload length"
  else if header.type ≠ FrameGoWay then
    .err "GOWAYFRAME_ERROR: expected frame type"
  else if header.streamID ≠ 0 then
    .err "GOWAYFRAME_ERROR: streamID must be zero"
  else
    let dbgLen := (header.length + 2 ^ 32 - 8) % 2 ^ 32
    if header.length > 8 then
      if payload.length < header.length then
        .crash
      else
        .ok { frameHeader := header,
              lastStreamID := uint32At payload 0 &&& 0x7FFFFFFF,
              errorCode := uint32At payload 4,
              debugData := (payload.drop 8).take dbgLen }
    else
      .ok { frameHeader := header,
            lastStreamID := uint32At payload 0 &&& 0x7FFFFFFF,
            errorCode := uint32At payload 4,
            debugData := List.replicate dbgLen 0 }

/- serialize then parse back, splitting the produced frame into its 9 header
   bytes and its payload, as the round-trip property does. -/
def goAwayRoundTrip (f : GoAwayFrame) : SResult GoAwayFrame :=
  match GoAwayFrame.Serialize f with
  | .ok bytes =>
    match ParseFrameHeader (bytes.take 9) with
    | .ok h => ParseGoAwayFrame h (bytes.drop 9)
    | .err m => .err m
    | .crash => .crash
  | .err m => .err m
  | .crash => .crash

def windowUpdateRoundTrip (f : WindowUpdateFrame) : SResult WindowUpdateFrame :=
  match WindowUpdateFrame.Serialize f with
  | .ok bytes =>
    match ParseFrameHeader (bytes.take 9) with
    | .ok h => ParseWindowUpdateFrame h (bytes.drop 9)
    | .err m => .err m
    | .crash => .crash
  | .err m => .err m
  | .crash => .crash

-- a parse result whose stream id, if any, has the reserved bit cleared
def streamIDMasked : SResult FrameHeader → Prop
  | .ok h => h.streamID < 2 ^ 31
  | _ => True

/-- C1: the round-trip property fails on the code.  For the GOAWAY frame with
StreamID 0, Type GOAWAY, LastStreamID 1, ErrorCode 5 and a 4-byte debug block,
Serialize succeeds, but parsing the serialized header together with the
serialized payload returns a frame whose ErrorCode is 0, not the original 5:
GoAwayFrame.Serialize writes the error code four bytes past its place and the
debug-data copy then overwrites it. -/
theorem goaway_roundtrip_errorcode_mismatch :
    goAwayRoundTrip { frameHeader := { length := 0, type := 7, flags := 0, streamID := 0 },
                      lastStreamID := 1, errorCode := 5, debugData := [1, 2, 3, 4] } =
      .ok { frameHeader := { length := 12, type := 7, flags := 0, streamID := 0 },
            lastStreamID := 1, errorCode := 0, debugData := [1, 2, 3, 4] } ∧
    (5 : Nat) ≠ 0 := by
  constructor
  · decide
  · decide

/-- C2: the payload length computed by HeadersFrame.Serialize for a padded
frame is 1 + pad_len, not len(header_block) + 1 + pad_len as claimed: the
padded branch assigns instead of adding.  For StreamID 1, PADDED flag, pad_len
0 and a 1-byte header block, the produced frame has length field 1 (third
header byte) and the header block byte 0xAA is dropped from the output, while
the claimed total is 2. -/
theorem headers_padded_payloadlength_mismatch :
    HeadersFrame.Serialize { frameHeader := { length := 0, type := 1, flags := 8, streamID := 1 },
                             padLen := 0, exclusive := false, streamDependency := 0,
                             weight := 0, headerBlock := [0xAA] } =
      .ok [0, 0, 1, 1, 8, 0, 0, 0, 1, 0] ∧
    ([0xAA] : List Nat).length + (1 + 0) = 2 := by
  constructor
  · decide
  · decide

/-- C3: the serialized GOAWAY payload is not last_stream_id, then error_code,
then debug data.  For StreamID 0, LastStreamID 3, ErrorCode 5 and debug data
[9,9,9,9], the payload bytes 4..8 are 00 00 00 00 instead of the error code
00 00 00 05: the error code is written at payload offset 8 and then
overwritten by the debug-data copy. -/
theorem goaway_payload_layout_mismatch :
    GoAwayFrame.Serialize { frameHeader := { length := 0, type := 7, flags := 0, streamID := 0 },
                            lastStreamID := 3, errorCode := 5, debugData := [9, 9, 9, 9] } =
      .ok [0, 0, 12, 7, 0, 0, 0, 0, 0, 0, 0, 0, 3, 0, 0, 0, 0, 9, 9, 9, 9] ∧
    [0, 0, 12, 7, 0, 0, 0, 0, 0, 0, 0, 0, 3, 0, 0, 0, 0, 9, 9, 9, 9].drop 9 ≠
      putUint32 (3 &&& 0x7FFFFFFF) ++ putUint32 5 ++ [9, 9, 9, 9] := by
  constructor
  · decide
  · decide

/-- C4: serializing a GoAwayFrame with StreamID 0 and empty debug_data does
not succeed: the source slices frame[17:21] in a 17-byte buffer, a runtime
out-of-range failure (modelled as crash), so no frame with header length 8 is
produced. -/
theorem goaway_empty_debug_serialize_crash :
    GoAwayFrame.Serialize { frameHeader := { length := 0, type := 7, flags := 0, streamID := 0 },
                            lastStreamID := 0, errorCode := 0, debugData := [] } =
      .crash := by
  decide

/-- C5 counterexample: SettingsFrame.Serialize does not fail for a nonzero
StreamID; with StreamID 1 and no settings it returns a 9-byte buffer, not an
error. -/
theorem settings_serialize_nonzero_streamid_ok :
    SettingsFrame.Serialize { frameHeader := { length := 0, type := 4, flags := 0, streamID := 1 },
                              settings := [] } =
      .ok [0, 0, 0, 4, 0, 0, 0, 0, 1] ∧
    (1 : Nat) ≠ 0 := by
  constructor
  · decide
  · decide

/-- C5 amended: only the parse side of the SETTINGS codec enforces stream id
0 — ParseSettingsFrame fails with the protocol error for every nonzero stream
id, while SettingsFrame.Serialize performs no stream-id check and returns a
buffer for every frame. -/
theorem settings_streamid_check_parse_only :
    (∀ (h : FrameHeader) (p : List Nat), h.streamID ≠ 0 →
        ParseSettingsFrame h p = .err "SETTINGS_FRAME_ERROR: streamID must be zero") ∧
    (∀ f : SettingsFrame, (SettingsFrame.Serialize f).isOk = true) := by
  constructor
  · intro h p hs
    unfold ParseSettingsFrame
    simp [hs]
  · intro f
    unfold SettingsFrame.Serialize
    simp [SResult.isOk]

/-- C5 witness: the amended statement at stream id 1 with an empty payload. -/
theorem settings_streamid_check_parse_only_witness :
    ParseSettingsFrame { length := 0, type := 4, flags := 0, streamID := 1 } [] =
      .err "SETTINGS_FRAME_ERROR: streamID must be zero" :=
  settings_streamid_check_parse_only.1
    { length := 0, type := 4, flags := 0, streamID := 1 } [] (by decide)

/-- C6 counterexample: serializing Data with stream_id 1, flags 0 and data
"hello" does not produce the claimed 15-byte sequence
00 00 00 05 00 00 00 00 00 01 68 65 6C 6C 6F. -/
theorem data_hello_fifteen_byte_claim_false :
    DataFrame.Serialize { frameHeader := { length := 0, type := 0, flags := 0, streamID := 1 },
                          padLen := 0, data := [0x68, 0x65, 0x6C, 0x6C, 0x6F] } ≠
      .ok [0x00, 0x00, 0x00, 0x05, 0x00, 0x00, 0x00, 0x00, 0x00, 0x01,
           0x68, 0x65, 0x6C, 0x6C, 0x6F] := by
  decide

/-- C6 amended: that serialization produces exactly the 14-byte frame
00 00 05 00 00 00 00 00 01 68 65 6C 6C 6F — a 3-byte length field 00 00 05,
with no extra leading 00 byte. -/
theorem data_hello_serializes_fourteen_bytes :
    DataFrame.Serialize { frameHeader := { length := 0, type := 0, flags := 0, streamID := 1 },
                          padLen := 0, data := [0x68, 0x65, 0x6C, 0x6C, 0x6F] } =
      .ok [0x00, 0x00, 0x05, 0x00, 0x00, 0x00, 0x00, 0x00, 0x01,
           0x68, 0x65, 0x6C, 0x6C, 0x6F] := by
  decide

/-- C7: for every FrameHeader the serialized stream-identifier bytes have the
reserved (top) bit zero — the first of the four stream-id bytes is below 128 —
and every successfully parsed header has its stream id masked below 2^31; in
particular serializing a header with stream id 0x80000001 and parsing the
result yields stream id 1. -/
theorem header_reserved_bit_masked :
    (∀ h : FrameHeader, (FrameHeader.Serialize h).getD 5 0 < 128) ∧
    (∀ data : List Nat, streamIDMasked (ParseFrameHeader data)) ∧
    ParseFrameHeader
        (FrameHeader.Serialize { length := 0, type := 0, flags := 0, streamID := 0x80000001 }) =
      .ok { length := 0, type := 0, flags := 0, streamID := 1 } := by
  refine ⟨?_, ?_, by decide⟩
  · intro h
    have hv : h.streamID &&& 0x7FFFFFFF < 2 ^ 31 :=
      lt_of_le_of_lt Nat.and_le_right (by norm_num)
    have hb : (h.streamID &&& 0x7FFFFFFF) >>> 24 < 128 := by
      rw [Nat.shiftRight_eq_div_pow]
      exact Nat.div_lt_of_lt_mul (by omega)
    simp only [FrameHeader.Serialize, putUint32, List.cons_append, List.nil_append,
      List.getD_cons_succ, List.getD_cons_zero]
    exact lt_of_le_of_lt (Nat.mod_le _ _) hb
  · intro data
    unfold ParseFrameHeader
    split
    · trivial
    · exact lt_of_le_of_lt Nat.and_le_right (by decide)

/-- C8: WindowUpdateFrame.Serialize fails exactly when the increment is 0 or
above 0x7FFFFFFF (out-of-range values are rejected, never silently masked);
ParseWindowUpdateFrame fails whenever the masked increment is 0; and increment
0x7FFFFFFF round-trips through serialize-then-parse unchanged. -/
theorem window_update_increment_contract :
    (∀ f : WindowUpdateFrame,
        (WindowUpdateFrame.Serialize f).isErr = true ↔
          (f.windowSizeIncrement = 0 ∨ f.windowSizeIncrement > 0x7FFFFFFF)) ∧
    (∀ (h : FrameHeader) (p : List Nat), uint32At p 0 &&& 0x7FFFFFFF = 0 →
        (ParseWindowUpdateFrame h p).isErr = true) ∧
    windowUpdateRoundTrip { frameHeader := { length := 0, type := 8, flags := 0, streamID := 1 },
                            windowSizeIncrement := 0x7FFFFFFF } =
      .ok { frameHeader := { length := 4, type := 8, flags := 0, streamID := 1 },
            windowSizeIncrement := 0x7FFFFFFF } := by
  refine ⟨?_, ?_, by decide⟩
  · intro f
    unfold WindowUpdateFrame.Serialize
    split
    · simp_all [SResult.isErr]
    · simp_all [SResult.isErr]
  · intro h p hm
    unfold ParseWindowUpdateFrame
    split
    · simp [SResult.isErr]
    · split
      · simp [SResult.isErr]
      · split
        · simp [SResult.isErr]
        · simp only [hm]
          simp [SResult.isErr]

/-- C8 witness: the serialize iff at increment 0, and the parse failure on a
zero increment payload with a well-typed header. -/
theorem window_update_increment_contract_witness :
    (WindowUpdateFrame.Serialize { frameHeader := { length := 0, type := 8, flags := 0,
                                                    streamID := 1 },
                                   windowSizeIncrement := 0 }).isErr = true ∧
    (ParseWindowUpdateFrame { length := 4, type := 8, flags := 0, streamID := 1 }
        [0, 0, 0, 0]).isErr = true :=
  ⟨(window_update_increment_contract.1 _).2 (Or.inl rfl),
   window_update_increment_contract.2.1 _ [0, 0, 0, 0] (by decide)⟩

/-- C9 counterexample: ParseGoAwayFrame is not total at its public interface.
With Type GOAWAY, StreamID 0, an 8-byte payload and header length field 9, the
source slices payload[8:9] past the end of the payload: an out-of-bounds
access (modelled as crash), not a returned result. -/
theorem goaway_parse_oob_crash :
    ParseGoAwayFrame { length := 9, type := 7, flags := 0, streamID := 0 }
        (List.replicate 8 0) = .crash := by
  decide

/-- C9 amended: for every header with Type GOAWAY and StreamID 0 and every
payload of at least 8 bytes, ParseGoAwayFrame returns a result without
out-of-bounds payload access provided the header's length field does not
exceed the payload length; when length exceeds both 8 and the payload length
the slice payload[8:length] is out of bounds. -/
theorem goaway_parse_total_within_bounds :
    ∀ (h : FrameHeader) (p : List Nat), h.type = FrameGoWay → h.streamID = 0 →
      8 ≤ p.length → h.length ≤ p.length → (ParseGoAwayFrame h p).isOk = true := by
  intro h p ht hs hl hb
  unfold ParseGoAwayFrame
  split
  · omega
  · split
    · simp_all
    · split
      · simp_all
      · split
        · split
          · omega
          · simp [SResult.isOk]
        · simp [SResult.isOk]

/-- C9 witness: the amended statement at a GOAWAY header with length 8 and an
8-byte payload. -/
theorem goaway_parse_total_within_bounds_witness :
    (ParseGoAwayFrame { length := 8, type := 7, flags := 0, streamID := 0 }
        (List.replicate 8 0)).isOk = true :=
  goaway_parse_total_within_bounds _ _ (by decide) (by decide) (by decide) (by decide)

/-- C10: ParseHeadersFrame and ParseSettingsFrame never reject on frame-type
mismatch — the success of ParseHeadersFrame is unchanged under any rewrite of
the header's type, and ParseSettingsFrame succeeds for any type whenever the
stream id is 0 and the payload length is a multiple of 6 — while
ParseDataFrame, ParsePingFrame, ParseWindowUpdateFrame, ParseRSTStreamFrame
and ParseGoAwayFrame all fail on every header whose type differs from their
frame type. -/
theorem parse_type_check_asymmetry :
    (∀ (h : FrameHeader) (p : List Nat) (t : Nat),
        (ParseHeadersFrame h p).isOk = (ParseHeadersFrame { h with type := t } p).isOk) ∧
    (∀ (h : FrameHeader) (p : List Nat), h.streamID = 0 → p.length % 6 = 0 →
        (ParseSettingsFrame h p).isOk = true) ∧
    (∀ (h : FrameHeader) (p : List Nat), h.type ≠ FrameData →
        (ParseDataFrame h p).isErr = true) ∧
    (∀ (h : FrameHeader) (p : List Nat), h.type ≠ FramePing →
        (ParsePingFrame h p).isErr = true) ∧
    (∀ (h : FrameHeader) (p : List Nat), h.type ≠ FrameWindowUpdate →
        (ParseWindowUpdateFrame h p).isErr = true) ∧
    (∀ (h : FrameHeader) (p : List Nat), h.type ≠ FrameRSTStream →
        (ParseRSTStreamFrame h p).isErr = true) ∧
    (∀ (h : FrameHeader) (p : List Nat), h.type ≠ FrameGoWay →
        (ParseGoAwayFrame h p).isErr = true) := by
  refine ⟨?_, ?_, ?_, ?_, ?_, ?_, ?_⟩
  · intro h p t
    obtain ⟨l, ty, fl, sid⟩ := h
    unfold ParseHeadersFrame
    dsimp only
    repeat' split
    all_goals rfl
  · intro h p hs hm
    unfold ParseSettingsFrame
    simp [hs, hm, SResult.isOk]
  · intro h p ht
    unfold ParseDataFrame
    simp [ht, SResult.isErr]
  · intro h p ht
    unfold ParsePingFrame
    simp [ht, SResult.isErr]
  · intro h p ht
    unfold ParseWindowUpdateFrame
    split
    · simp [SResult.isErr]
    · simp [ht, SResult.isErr]
  · intro h p ht
    unfold ParseRSTStreamFrame
    split
    · simp [SResult.isErr]
    · simp [ht, SResult.isErr]
  · intro h p ht
    unfold ParseGoAwayFrame
    split
    · simp [SResult.isErr]
    · simp [ht, SResult.isErr]

/-- C10 witness: with a header of type HEADERS (not SETTINGS, not DATA) and an
empty payload, ParseSettingsFrame succeeds and ParseDataFrame fails. -/
theorem parse_type_check_asymmetry_witness :
    (ParseSettingsFrame { length := 0, type := 1, flags := 0, streamID := 0 } []).isOk = true ∧
    (ParseDataFrame { length := 0, type := 1, flags := 0, streamID := 0 } []).isErr = true :=
  ⟨parse_type_check_asymmetry.2.1 _ [] (by decide) (by decide),
   parse_type_check_asymmetry.2.2.1 _ [] (by decide)⟩
